import Mathlib

/-!
Shallow embedding of the collectd ZooKeeper JMX plugin (src/zookeeperjmx.py).

Python dictionaries are modelled as association lists over `String` keys with
JSON-ish values (`JVal`).  Python floats are modelled as exact rationals and
`round(x, n)` as round-half-away-from-zero at `n` decimal digits (CPython 2
semantics).  An operation that would raise an uncaught Python exception
(KeyError, TypeError, IndexError, ZeroDivisionError) is modelled by an
explicit error value.

Constants imported from `constants.py` (a file of this repository that is not
part of src/) are modelled from the spec: the metric-record key names
(`TIMESTAMP`, `PLUGIN`, ...) are opaque distinct strings, `FLOATING_FACTOR`
is 2 (the spec rounds to 2 decimals everywhere) and the `NAN` rate sentinel
is modelled as the distinguished constructor `RateResult.nan`.
-/

/-- A JSON-ish value stored in a metric record: a number or a string. -/
inductive JVal where
  | num (q : ℚ)
  | str (s : String)
deriving DecidableEq, Repr

/-- Association-list lookup, modelling `d[k]` / `k in d` on a Python dict. -/
def alGet {α : Type} : List (String × α) → String → Option α
  | [], _ => none
  | (k, v) :: rest, key => if k = key then some v else alGet rest key

/-- Association-list update, modelling `d[k] = v` on a Python dict. -/
def alSet {α : Type} : List (String × α) → String → α → List (String × α)
  | [], key, v => [(key, v)]
  | (k, w) :: rest, key, v =>
      if k = key then (k, v) :: rest else (k, w) :: alSet rest key v

/-- Association-list deletion, modelling `del d[k]` (the key is assumed present
by the caller; presence is checked separately where `del` may fail). -/
def alDel {α : Type} : List (String × α) → String → List (String × α)
  | [], _ => []
  | (k, w) :: rest, key =>
      if k = key then alDel rest key else (k, w) :: alDel rest key

/-- A Python dict holding one metric record. -/
abbrev Dict := List (String × JVal)

instance {ε α : Type} [DecidableEq ε] [DecidableEq α] : DecidableEq (Except ε α)
  | .error e1, .error e2 =>
    if h : e1 = e2 then isTrue (by rw [h]) else isFalse (by intro g; cases g; exact h rfl)
  | .error _, .ok _ => isFalse (by intro g; cases g)
  | .ok _, .error _ => isFalse (by intro g; cases g)
  | .ok a1, .ok a2 =>
    if h : a1 = a2 then isTrue (by rw [h]) else isFalse (by intro g; cases g; exact h rfl)

/-- `k in d` on a Python dict. -/
def dictHas (d : Dict) (k : String) : Bool := (alGet d k).isSome

/-- CPython 2 `round(q, n)`: round half away from zero at `n` decimal digits,
computed exactly on rationals. -/
def pyRoundAt (q : ℚ) (n : ℕ) : ℚ :=
  let m : ℚ := (10 : ℚ) ^ n
  let x : ℚ := q * m
  let r : ℤ := if x < 0 then -(Int.floor (-x + 1/2)) else Int.floor (x + 1/2)
  (r : ℚ) / m

/-- Modelled from the spec: the timestamp key from constants.py (not in src). -/
def TIMESTAMP : String := "time"

/-- Modelled from the spec: the plugin-name key from constants.py. -/
def PLUGIN : String := "plugin"

/-- Modelled from the spec: the plugin-type key from constants.py. -/
def PLUGINTYPE : String := "pluginType"

/-- Modelled from the spec: the actual-plugin-type key from constants.py. -/
def ACTUALPLUGINTYPE : String := "actualPluginType"

/-- Modelled from the spec: the plugin-instance key from constants.py. -/
def PLUGIN_INS : String := "pluginInstance"

/-- Modelled from the spec: the fixed plugin identifier from constants.py. -/
def ZOOK_JMX : String := "zookeeperJmx"

/-- `FLOATING_FACTOR` from constants.py, modelled from the spec (2 decimals). -/
def FLOATING_FACTOR : ℕ := 2

/-- The two statistic categories collected per process (`ZOOK_DOCS`). -/
def ZOOK_DOCS : List String := ["jmxStats", "zookeeperStats"]

/-- The garbage-collector allow-list `DEFAULT_GC`. -/
def DEFAULT_GC : List String := ["G1 Old Generation", "G1 Young Generation"]

/-- The memory-pool allow-list `DEFAULT_MP`. -/
def DEFAULT_MP : List String :=
  ["G1 Eden Space", "G1 Old Gen", "G1 Survivor Space", "Metaspace",
   "Code Cache", "Compressed Class Space"]

/-- CPython 2 comparison `a <= b` restricted to the value shapes that occur in
metric records: numbers compare numerically, strings lexicographically, and a
number compares below any string (CPython 2 mixed-type ordering). -/
def JVal.le : JVal → JVal → Bool
  | .num a, .num b => a ≤ b
  | .str a, .str b => a ≤ b
  | .num _, .str _ => true
  | .str _, .num _ => false

/-- Result of `JmxStat.get_rate`: the `NAN` sentinel, a computed rate, or an
uncaught Python exception (KeyError/TypeError/ZeroDivisionError). -/
inductive RateResult where
  | nan
  | val (q : ℚ)
  | exn
deriving DecidableEq, Repr

/-- `JmxStat.get_rate(key, curr_data, prev_data)` (src lines 170-194).
`interval` is `self.interval`.  Returns `nan` when the previous sample is
empty, the key is missing from the previous sample, either sample lacks the
timestamp, or the current timestamp is not strictly greater; otherwise
computes `(curr[key] - prev[key]) / float(interval)` and clamps negative
rates to 0.  `curr_data[key]` is looked up only at the subtraction, so a key
present in `prev_data` but absent from `curr_data` raises (modelled `exn`),
as do non-numeric operands and a zero interval. -/
def get_rate (interval : ℚ) (key : String) (curr_data prev_data : Dict) :
    RateResult :=
  if prev_data = [] then .nan
  else if dictHas prev_data key = false then .nan
  else if dictHas curr_data TIMESTAMP = false ∨ dictHas prev_data TIMESTAMP = false then .nan
  else if JVal.le ((alGet curr_data TIMESTAMP).getD (.num 0))
      ((alGet prev_data TIMESTAMP).getD (.num 0)) then .nan
  else
    match alGet curr_data key, alGet prev_data key with
    | some (.num c), some (.num p) =>
        if interval = 0 then .exn
        else if (c - p) / interval < 0 then .val 0 else .val ((c - p) / interval)
    | _, _ => .exn

/-- `JmxStat.add_default_rate_value` (src lines 164-168): sets both tracked
rate keys to the integer 0. -/
def add_default_rate_value (dict_jmx : Dict) : Dict :=
  alSet (alSet dict_jmx "packetsReceivedRate" (.num 0)) "packetsSentRate" (.num 0)

/-- `JmxStat.add_rate` (src lines 196-203): for each of the two counters,
compute the rate against the stored previous sample and, unless it is the
`NAN` sentinel, store it rounded to `FLOATING_FACTOR` decimals.  An exception
inside `get_rate` propagates (modelled as `Except.error`). -/
def add_rate (interval : ℚ) (pid_prev : Dict) (dict_jmx : Dict) :
    Except String Dict :=
  match get_rate interval "packetsReceived" dict_jmx pid_prev with
  | .exn => .error "exception in get_rate(packetsReceived)"
  | r1 =>
    let d1 := match r1 with
      | .val q => alSet dict_jmx "packetsReceivedRate" (.num (pyRoundAt q FLOATING_FACTOR))
      | _ => dict_jmx
    match get_rate interval "packetsSent" d1 pid_prev with
    | .exn => .error "exception in get_rate(packetsSent)"
    | r2 =>
      match r2 with
      | .val q => .ok (alSet d1 "packetsSentRate" (.num (pyRoundAt q FLOATING_FACTOR)))
      | _ => .ok d1

/-- `JmxStat.dispatch_data` (src lines 549-557): for the rate-bearing category
the two raw counters are deleted (a missing key raises KeyError, modelled as
`Except.error`); then the record is forwarded to `utils.dispatch`, modelled by
returning it. -/
def dispatch_data (doc_name : String) (result : Dict) : Except String Dict :=
  if doc_name = "zookeeperStats" then
    if dictHas result "packetsSent" then
      let r1 := alDel result "packetsSent"
      if dictHas r1 "packetsReceived" then .ok (alDel r1 "packetsReceived")
      else .error "KeyError: packetsReceived"
    else .error "KeyError: packetsSent"
  else .ok result

/-- Outcome of `JmxStat.add_rate_dispatch`: an exception raised before the
previous-sample store, one raised after it (by `dispatch_data`), or success
with the new stored state and the record handed to `utils.dispatch`. -/
inductive ARDOut where
  | exnBeforeStore (msg : String)
  | exnAfterStore (newPrev : List (String × Dict)) (msg : String)
  | ok (newPrev : List (String × Dict)) (dispatched : Dict)
deriving DecidableEq, Repr

/-- `JmxStat.add_rate_dispatch(pid, doc, dict_jmx)` (src lines 205-212):
attach rates (or first-poll defaults) to `dict_jmx` in place, store the
resulting dict as `self.prev_data[pid]`, then dispatch a deep copy (value
semantics make the copy independent of the stored dict). -/
def add_rate_dispatch (interval : ℚ) (prev_data : List (String × Dict))
    (pid doc : String) (dict_jmx : Dict) : ARDOut :=
  match (if (alGet prev_data pid).isSome then
           add_rate interval ((alGet prev_data pid).getD []) dict_jmx
         else .ok (add_default_rate_value dict_jmx)) with
  | .error e => .exnBeforeStore e
  | .ok d2 =>
    match dispatch_data doc d2 with
    | .error e => .exnAfterStore (alSet prev_data pid d2) e
    | .ok out => .ok (alSet prev_data pid d2) out

/- ## Association-list lemmas -/

theorem alGet_set_self {α : Type} (d : List (String × α)) (k : String) (v : α) :
    alGet (alSet d k v) k = some v := by
  induction d with
  | nil => simp [alGet, alSet]
  | cons hd tl ih =>
    obtain ⟨k2, w⟩ := hd
    by_cases h : k2 = k <;> simp [alGet, alSet, h, ih]

theorem alGet_set_ne {α : Type} (d : List (String × α)) (k k2 : String) (v : α)
    (h : k2 ≠ k) : alGet (alSet d k2 v) k = alGet d k := by
  induction d with
  | nil => simp [alGet, alSet, h]
  | cons hd tl ih =>
    obtain ⟨k3, w⟩ := hd
    by_cases h2 : k3 = k2 <;> simp [alGet, alSet, h2, ih]
    subst h2
    simp [h]

theorem alGet_set {α : Type} (d : List (String × α)) (k k2 : String) (v : α) :
    alGet (alSet d k2 v) k = if k2 = k then some v else alGet d k := by
  by_cases h : k2 = k
  · subst h; simp [alGet_set_self]
  · simp [h, alGet_set_ne d k k2 v h]

theorem alGet_del_self {α : Type} (d : List (String × α)) (k : String) :
    alGet (alDel d k) k = none := by
  induction d with
  | nil => simp [alGet, alDel]
  | cons hd tl ih =>
    obtain ⟨k2, w⟩ := hd
    by_cases h : k2 = k <;> simp [alGet, alDel, h, ih]

theorem alGet_del_ne {α : Type} (d : List (String × α)) (k k2 : String)
    (h : k2 ≠ k) : alGet (alDel d k2) k = alGet d k := by
  induction d with
  | nil => simp [alDel]
  | cons hd tl ih =>
    obtain ⟨k3, w⟩ := hd
    by_cases h2 : k3 = k2 <;> simp [alGet, alDel, h2, ih]
    subst h2
    simp [h]

theorem dictHas_set_self (d : Dict) (k : String) (v : JVal) :
    dictHas (alSet d k v) k = true := by
  simp [dictHas, alGet_set_self]

theorem dictHas_set_mono (d : Dict) (k k2 : String) (v : JVal)
    (h : dictHas d k = true) : dictHas (alSet d k2 v) k = true := by
  by_cases h2 : k2 = k
  · subst h2; simp [dictHas, alGet_set_self]
  · simpa [dictHas, alGet_set_ne d k k2 v h2] using h

theorem dictHas_del_self (d : Dict) (k : String) :
    dictHas (alDel d k) k = false := by
  simp [dictHas, alGet_del_self]

theorem dictHas_del_ne (d : Dict) (k k2 : String) (h : k2 ≠ k) :
    dictHas (alDel d k2) k = dictHas d k := by
  simp [dictHas, alGet_del_ne d k k2 h]

/- ## Metric Extractor: shared helpers and per-category routines -/

/-- `''.join(name.split())` (src lines 277, 289, 389, 442): strip internal
whitespace from a pool/collector name before use as a metric-name prefix. -/
def squashName (s : String) : String := String.join (s.splitOn " ")

/-- `JmxStat.handle_neg_bytes(value, resultkey, dict_jmx)` (src lines
475-480): keep the sentinel -1 verbatim, otherwise convert bytes to
megabytes rounded to 2 decimals. -/
def handle_neg_bytes (value : ℚ) (resultkey : String) (dict_jmx : Dict) : Dict :=
  if value = -1 then alSet dict_jmx resultkey (.num value)
  else alSet dict_jmx resultkey (.num (pyRoundAt (value / 1024 / 1024) 2))

/-- A JVM `MemoryUsage` composite value (keys init/max/used/committed). -/
structure MemUsage where
  init : ℚ
  max : ℚ
  used : ℚ
  committed : ℚ
deriving DecidableEq, Repr

/-- The `java.lang:type=Memory` response value consumed by the plugin. -/
structure MemoryValue where
  heap : MemUsage
  nonHeap : MemUsage
  objectPendingFinalizationCount : ℚ
deriving DecidableEq, Repr

/-- The `java.lang:type=ClassLoading` response value consumed by the plugin. -/
structure ClassLoadingValue where
  unloadedClassCount : ℚ
  loadedClassCount : ℚ
  totalLoadedClassCount : ℚ
deriving DecidableEq, Repr

/-- The `java.lang:type=Threading` response value consumed by the plugin. -/
structure ThreadingValue where
  threadCount : ℚ
  peakThreadCount : ℚ
  daemonThreadCount : ℚ
  totalStartedThreadCount : ℚ
  currentThreadCpuTimeSupported : Bool
  currentThreadCpuTime : ℚ
  currentThreadUserTime : ℚ
deriving DecidableEq, Repr

/-- The `java.lang:type=OperatingSystem` response value consumed by the
plugin. -/
structure OSValue where
  arch : String
  availableProcessors : ℚ
  committedVirtualMemorySize : ℚ
  freePhysicalMemorySize : ℚ
  freeSwapSpaceSize : ℚ
  maxFileDescriptorCount : ℚ
  osName : String
  openFileDescriptorCount : ℚ
  processCpuLoad : ℚ
  processCpuTime : ℚ
  totalPhysicalMemorySize : ℚ
  totalSwapSpaceSize : ℚ
  osVersion : String
  systemCpuLoad : ℚ
  systemLoadAverage : ℚ
deriving DecidableEq, Repr

/-- `JmxStat.add_memory_parameters` (src lines 416-432).  The argument is the
`java.lang:type=Memory` read response: `none` models `status != 200` (the
whole category body is skipped), `some` carries the JSON value. -/
def add_memory_parameters (memory_json : Option MemoryValue) (dict_jmx : Dict) :
    Dict :=
  match memory_json with
  | none => dict_jmx
  | some mv =>
    let d1 := handle_neg_bytes mv.heap.init "heapMemoryUsageInit" dict_jmx
    let d2 := handle_neg_bytes mv.heap.max "heapMemoryUsageMax" d1
    let d3 := alSet d2 "heapMemoryUsageUsed" (.num (pyRoundAt (mv.heap.used / 1024 / 1024) 2))
    let d4 := alSet d3 "heapMemoryUsageCommitted" (.num (pyRoundAt (mv.heap.committed / 1024 / 1024) 2))
    let d5 := handle_neg_bytes mv.nonHeap.init "nonHeapMemoryUsageInit" d4
    let d6 := handle_neg_bytes mv.nonHeap.max "nonHeapMemoryUsageMax" d5
    let d7 := alSet d6 "nonHeapMemoryUsageUsed" (.num (pyRoundAt (mv.nonHeap.used / 1024 / 1024) 2))
    let d8 := alSet d7 "nonHeapMemoryUsageCommitted" (.num (pyRoundAt (mv.nonHeap.committed / 1024 / 1024) 2))
    alSet d8 "objectPendingFinalization" (.num mv.objectPendingFinalizationCount)

/-- `JmxStat.add_operating_system_parameters` (src lines 317-338).  Note the
non-negative guard on `ProcessCpuTime` only. -/
def add_operating_system_parameters (ops : Option OSValue) (dict_jmx : Dict) :
    Dict :=
  match ops with
  | none => dict_jmx
  | some v =>
    let d1 := alSet dict_jmx "osArchitecture" (.str v.arch)
    let d2 := alSet d1 "availableProcessors" (.num v.availableProcessors)
    let d3 := handle_neg_bytes v.committedVirtualMemorySize "committedVirtualMemorySize" d2
    let d4 := alSet d3 "freePhysicalMemorySize" (.num (pyRoundAt (v.freePhysicalMemorySize / 1024 / 1024) 2))
    let d5 := alSet d4 "freeSwapSpaceSize" (.num (pyRoundAt (v.freeSwapSpaceSize / 1024 / 1024) 2))
    let d6 := alSet d5 "maxFileDescriptors" (.num v.maxFileDescriptorCount)
    let d7 := alSet d6 "osName" (.str v.osName)
    let d8 := alSet d7 "openFileDescriptors" (.num v.openFileDescriptorCount)
    let d9 := alSet d8 "processCpuLoad" (.num v.processCpuLoad)
    let pcputime := if 0 ≤ v.processCpuTime then pyRoundAt (v.processCpuTime / 1000000000) 2 else v.processCpuTime
    let d10 := alSet d9 "processCpuTime" (.num pcputime)
    let d11 := alSet d10 "totalPhysicalMemorySize" (.num (pyRoundAt (v.totalPhysicalMemorySize / 1024 / 1024) 2))
    let d12 := alSet d11 "totalSwapSpaceSize" (.num (pyRoundAt (v.totalSwapSpaceSize / 1024 / 1024) 2))
    let d13 := alSet d12 "osVersion" (.str v.osVersion)
    let d14 := alSet d13 "systemCpuLoad" (.num v.systemCpuLoad)
    alSet d14 "systemLoadAverage" (.num v.systemLoadAverage)

/-- `JmxStat.add_threading_parameters` (src lines 403-414).  The two
current-thread CPU times are gated only by `CurrentThreadCpuTimeSupported`
and converted unconditionally (no non-negative guard). -/
def add_threading_parameters (thread_json : Option ThreadingValue)
    (dict_jmx : Dict) : Dict :=
  match thread_json with
  | none => dict_jmx
  | some v =>
    let d1 := alSet dict_jmx "threads" (.num v.threadCount)
    let d2 := alSet d1 "peakThreads" (.num v.peakThreadCount)
    let d3 := alSet d2 "daemonThreads" (.num v.daemonThreadCount)
    let d4 := alSet d3 "totalStartedThreads" (.num v.totalStartedThreadCount)
    if v.currentThreadCpuTimeSupported then
      let d5 := alSet d4 "currentThreadCpuTime" (.num (pyRoundAt (v.currentThreadCpuTime / 1000000000) 2))
      alSet d5 "currentThreadUserTime" (.num (pyRoundAt (v.currentThreadUserTime / 1000000000) 2))
    else d4

/-- `JmxStat.get_memory_pool_names` (src lines 214-224).  The argument models
the wildcard `Name` read: `none` is `status != 200`, `some names` carries the
discovered pool names in iteration order.  Returns the kept (allow-listed)
names and, reifying the `collectd.error` side effect, the rejected names. -/
def get_memory_pool_names : Option (List String) → List String × List String
  | none => ([], [])
  | some names => go names
where
  /-- The loop body: allow-listed names are appended, others are reported. -/
  go : List String → List String × List String
    | [] => ([], [])
    | n :: rest =>
      if n ∈ DEFAULT_MP then (n :: (go rest).1, (go rest).2)
      else ((go rest).1, n :: (go rest).2)

/-- `JmxStat.get_gc_names` (src lines 226-235), shaped like
`get_memory_pool_names` but against the GC allow-list. -/
def get_gc_names : Option (List String) → List String × List String
  | none => ([], [])
  | some names => go names
where
  /-- The loop body: allow-listed names are appended, others are reported. -/
  go : List String → List String × List String
    | [] => ([], [])
    | n :: rest =>
      if n ∈ DEFAULT_GC then (n :: (go rest).1, (go rest).2)
      else ((go rest).1, n :: (go rest).2)

/-- The GC `CollectionTime,CollectionCount` read value. -/
structure GCValues where
  collectionTime : ℚ
  collectionCount : ℚ
deriving DecidableEq, Repr

/-- Bridge-agent responses consumed by `add_jmxstats_parameters`: each field
models one read request, with `none` for `status != 200` (and, for the
`Valid` flags, `some b` for a 200 response carrying value `b`). -/
structure JmxEnv where
  classloading : Option ClassLoadingValue
  threading : Option ThreadingValue
  memory : Option MemoryValue
  gcValid : String → Option Bool
  gcValues : String → Option GCValues
  mpValid : String → Option Bool
  mpUsage : String → Option MemUsage

/-- The ten pre-declared GC / memory-pool keys defaulted to 0 in
`add_jmxstats_parameters` (src lines 263-267). -/
def jmx_param_list : List String :=
  ["G1OldGenerationCollectionTime", "G1OldGenerationCollectionCount",
   "G1YoungGenerationCollectionTime", "G1YoungGenerationCollectionCount",
   "G1OldGenUsageUsed", "G1SurvivorSpaceUsageUsed", "MetaspaceUsageUsed",
   "CodeCacheUsageUsed", "CompressedClassSpaceUsageUsed", "G1EdenSpaceUsageUsed"]

/-- One iteration of the GC loop of `add_jmxstats_parameters` (src lines
271-280): query `Valid`, then `CollectionTime,CollectionCount`, and store
both metrics under the whitespace-stripped name. -/
def jmx_gc_step (env : JmxEnv) (d : Dict) (gc_name : String) : Dict :=
  if env.gcValid gc_name = some true then
    match env.gcValues gc_name with
    | none => d
    | some gv =>
      let nm := squashName gc_name
      alSet (alSet d (nm ++ "CollectionTime") (.num (pyRoundAt (gv.collectionTime * (1/1000)) 2)))
        (nm ++ "CollectionCount") (.num gv.collectionCount)
  else d

/-- One iteration of the memory-pool loop of `add_jmxstats_parameters` (src
lines 284-291): query `Valid`, then `Usage`, and store the used megabytes
under the whitespace-stripped name. -/
def jmx_mp_step (env : JmxEnv) (d : Dict) (pool_name : String) : Dict :=
  if env.mpValid pool_name = some true then
    match env.mpUsage pool_name with
    | none => d
    | some u => alSet d (squashName pool_name ++ "UsageUsed") (.num (pyRoundAt (u.used / 1024 / 1024) 2))
  else d

/-- `JmxStat.add_jmxstats_parameters` (src lines 237-291): class-loading,
threading and memory reads, then the ten defaults, then the GC and
memory-pool loops over the allow-listed discovered names. -/
def add_jmxstats_parameters (env : JmxEnv)
    (gcDiscovered mpDiscovered : Option (List String)) (dict_jmx : Dict) : Dict :=
  let d1 := match env.classloading with
    | none => dict_jmx
    | some cl =>
      alSet (alSet dict_jmx "unloadedClass" (.num cl.unloadedClassCount))
        "loadedClass" (.num cl.loadedClassCount)
  let d2 := match env.threading with
    | none => d1
    | some tv => alSet d1 "threads" (.num tv.threadCount)
  let d3 := match env.memory with
    | none => d2
    | some mv =>
      let a := handle_neg_bytes mv.heap.init "heapMemoryUsageInit" d2
      let b := alSet a "heapMemoryUsageUsed" (.num (pyRoundAt (mv.heap.used / 1024 / 1024) 2))
      let c := alSet b "heapMemoryUsageCommitted" (.num (pyRoundAt (mv.heap.committed / 1024 / 1024) 2))
      let e := handle_neg_bytes mv.nonHeap.init "nonHeapMemoryUsageInit" c
      let f := alSet e "nonHeapMemoryUsageUsed" (.num (pyRoundAt (mv.nonHeap.used / 1024 / 1024) 2))
      alSet f "nonHeapMemoryUsageCommitted" (.num (pyRoundAt (mv.nonHeap.committed / 1024 / 1024) 2))
  let d4 := jmx_param_list.foldl (fun acc p => alSet acc p (.num 0)) d3
  let d5 := ((get_gc_names gcDiscovered).fst).foldl (jmx_gc_step env) d4
  ((get_memory_pool_names mpDiscovered).fst).foldl (jmx_mp_step env) d5

/-- The threshold triple read when `CollectionUsageThresholdSupported` (src
lines 461-466).  The code stores the `CollectionUsageThreshold` value under
both the Threshold and the ThresholdCount keys; the Count attribute is
requested but never read. -/
structure CollThresholdValues where
  collectionUsageThreshold : ℚ
  collectionUsageThresholdCount : ℚ
  collectionUsageThresholdExceeded : ℚ
deriving DecidableEq, Repr

/-- The threshold triple read when `UsageThresholdSupported` (src lines
467-473); as above, the Count attribute is requested but never read. -/
structure UsageThresholdValues where
  usageThreshold : ℚ
  usageThresholdCount : ℚ
  usageThresholdExceeded : ℚ
deriving DecidableEq, Repr

/-- The big attribute read of `add_memory_pool_parameters` (src line 441):
`CollectionUsage` may be JSON null (`none`); `Type` is requested but never
read and is omitted. -/
structure MPValues where
  collectionUsage : Option MemUsage
  usage : MemUsage
  peakUsage : MemUsage
  collectionUsageThresholdSupported : Bool
  usageThresholdSupported : Bool
deriving DecidableEq, Repr

/-- Bridge-agent responses consumed by `add_memory_pool_parameters`, per
discovered pool name; `none` models `status != 200`. -/
structure MPEnv where
  valid : String → Option Bool
  values : String → Option MPValues
  collThreshold : String → Option CollThresholdValues
  usageThreshold : String → Option UsageThresholdValues

/-- One iteration of the pool loop of `add_memory_pool_parameters` (src lines
436-473). -/
def mp_pool_step (env : MPEnv) (d : Dict) (pool_name : String) : Dict :=
  if env.valid pool_name = some true then
    match env.values pool_name with
    | none => d
    | some v =>
      let nm := squashName pool_name
      let d1 := match v.collectionUsage with
        | none => d
        | some cu =>
          let a := handle_neg_bytes cu.max (nm ++ "CollectionUsageMax") d
          let b := handle_neg_bytes cu.init (nm ++ "CollectionUsageInit") a
          let c := alSet b (nm ++ "CollectionUsageUsed") (.num (pyRoundAt (cu.used / 1024 / 1024) 2))
          alSet c (nm ++ "CollectionUsageCommitted") (.num (pyRoundAt (cu.committed / 1024 / 1024) 2))
      let d2 := handle_neg_bytes v.usage.max (nm ++ "UsageMax") d1
      let d3 := handle_neg_bytes v.usage.init (nm ++ "UsageInit") d2
      let d4 := alSet d3 (nm ++ "UsageUsed") (.num (pyRoundAt (v.usage.used / 1024 / 1024) 2))
      let d5 := alSet d4 (nm ++ "UsageCommitted") (.num (pyRoundAt (v.usage.committed / 1024 / 1024) 2))
      let d6 := handle_neg_bytes v.peakUsage.max (nm ++ "PeakUsageMax") d5
      let d7 := handle_neg_bytes v.peakUsage.init (nm ++ "PeakUsageInit") d6
      let d8 := alSet d7 (nm ++ "PeakUsageUsed") (.num (pyRoundAt (v.peakUsage.used / 1024 / 1024) 2))
      let d9 := alSet d8 (nm ++ "PeakUsageCommitted") (.num (pyRoundAt (v.peakUsage.committed / 1024 / 1024) 2))
      let d10 := if v.collectionUsageThresholdSupported then
          match env.collThreshold pool_name with
          | none => d9
          | some ct =>
            let x := alSet d9 (nm ++ "CollectionUsageThreshold") (.num (pyRoundAt (ct.collectionUsageThreshold / 1024 / 1024) 2))
            let y := alSet x (nm ++ "CollectionUsageThresholdCount") (.num ct.collectionUsageThreshold)
            alSet y (nm ++ "CollectionUsageThresholdExceeded") (.num ct.collectionUsageThresholdExceeded)
        else d9
      if v.usageThresholdSupported then
        match env.usageThreshold pool_name with
        | none => d10
        | some ut =>
          let x := alSet d10 (nm ++ "UsageThreshold") (.num (pyRoundAt (ut.usageThreshold / 1024 / 1024) 2))
          let y := alSet x (nm ++ "UsageThresholdCount") (.num ut.usageThreshold)
          alSet y (nm ++ "UsageThresholdExceeded") (.num ut.usageThresholdExceeded)
      else d10
  else d

/-- `JmxStat.add_memory_pool_parameters` (src lines 433-473): loop over the
allow-listed discovered pool names. -/
def add_memory_pool_parameters (env : MPEnv) (discovered : Option (List String))
    (dict_jmx : Dict) : Dict :=
  ((get_memory_pool_names discovered).fst).foldl (mp_pool_step env) dict_jmx

/- ## Collection Orchestrator and Bridge Agent Manager -/

/-- `JmxStat.add_common_params` (src lines 482-490): add the capture
timestamp and the plugin / category identification fields. -/
def add_common_params (doc : String) (timestamp : ℚ) (dict_jmx : Dict) : Dict :=
  let d1 := alSet dict_jmx TIMESTAMP (.num timestamp)
  let d2 := alSet d1 PLUGIN (.str ZOOK_JMX)
  let d3 := alSet d2 PLUGINTYPE (.str doc)
  let d4 := alSet d3 ACTUALPLUGINTYPE (.str ZOOK_JMX)
  alSet d4 PLUGIN_INS (.str doc)

/-- `JmxStat.get_pid_jmx_stats(pid, port, output)` (src lines 492-505): for
each category run the extraction (`extract doc` models `get_jmx_parameters`
filling a fresh dict, `Except.error` modelling an exception raised inside
it), raise on an empty record, add the common parameters and queue the tuple;
every exception is caught per category and converted to an error log.  The
result is the list of queued `(pid, doc, record)` tuples together with the
reified error-log lines; the worker itself never propagates an exception. -/
def get_pid_jmx_stats (pid : String) (extract : String → Except String Dict)
    (timestamp : ℚ) : List (String × String × Dict) × List String :=
  go ZOOK_DOCS
where
  /-- The per-category loop with its try/except body. -/
  go : List String → List (String × String × Dict) × List String
    | [] => ([], [])
    | doc :: rest =>
      match extract doc with
      | .error e => ((go rest).1, e :: (go rest).2)
      | .ok dict_jmx =>
        if dict_jmx = [] then ((go rest).1, "No data found" :: (go rest).2)
        else ((pid, doc, add_common_params doc timestamp dict_jmx) :: (go rest).1, (go rest).2)

/-- Result of the Drain/Dispatch phase of `collect_jmx_data`: the updated
rate state, the records forwarded to `utils.dispatch` in order, and the
number of lost-result anomalies logged. -/
structure DrainRes where
  newPrev : List (String × Dict)
  dispatched : List Dict
  lost : ℕ
deriving DecidableEq, Repr

/-- The Drain/Dispatch loop of `JmxStat.collect_jmx_data` (src lines
535-546): perform `pulls` non-blocking `get_nowait` calls against the result
channel (modelled FIFO); an empty channel logs a lost-result anomaly and
continues; a `zookeeperStats` tuple is routed through `add_rate_dispatch`,
any other through `dispatch_data`; an exception thrown by either aborts the
cycle (the dispatch calls are outside the `try` that guards only
`get_nowait`). -/
def drainLoop (interval : ℚ) : ℕ → List (String × String × Dict) →
    List (String × Dict) → List Dict → ℕ → Except String DrainRes
  | 0, _, prev, acc, lost => .ok ⟨prev, acc.reverse, lost⟩
  | n + 1, [], prev, acc, lost => drainLoop interval n [] prev acc (lost + 1)
  | n + 1, (pid, doc_name, doc_result) :: rest, prev, acc, lost =>
    if doc_name = "zookeeperStats" then
      match add_rate_dispatch interval prev pid doc_name doc_result with
      | .exnBeforeStore e => .error e
      | .exnAfterStore _ e => .error e
      | .ok newPrev disp => drainLoop interval n rest newPrev (disp :: acc) lost
    else
      match dispatch_data doc_name doc_result with
      | .error e => .error e
      | .ok out => drainLoop interval n rest prev (out :: acc) lost

/-- The whole Drain phase (src lines 534-547): exactly
`#workers * #categories` pulls after all workers are joined. -/
def collect_drain (interval : ℚ) (nprocs : ℕ)
    (queue : List (String × String × Dict)) (prev : List (String × Dict)) :
    Except String DrainRes :=
  drainLoop interval (nprocs * ZOOK_DOCS.length) queue prev [] 0

/-- Split a character list on a separator character, keeping empty
fragments, like Python `str.split(sep)`. -/
def splitOnChar (c : Char) : List Char → List (List Char)
  | [] => [[]]
  | x :: xs =>
    match splitOnChar c xs with
    | [] => [[x]]
    | g :: gs => if x = c then [] :: g :: gs else (x :: g) :: gs

/-- Python 2 `str.splitlines()` restricted to LF-terminated text: split on
the newline character; a trailing newline yields no extra empty line and the
empty string has no lines. -/
def pySplitlines (s : String) : List (List Char) :=
  if s.data = [] then []
  else
    let parts := splitOnChar (Char.ofNat 10) s.data
    if s.data.getLast? = some (Char.ofNat 10) then parts.dropLast else parts

/-- The maximal runs of decimal digits of a character list, in order: the
matches of `re.findall` with a digit-run pattern (src line 123). -/
def digitRuns (s : List Char) : List (List Char) :=
  go s []
where
  /-- Scan characters, accumulating the current digit run (reversed). -/
  go : List Char → List Char → List (List Char)
    | [], acc => if acc = [] then [] else [acc.reverse]
    | c :: cs, acc =>
      if c.isDigit then go cs (c :: acc)
      else if acc = [] then go cs [] else acc.reverse :: go cs []

/-- Numeric value of a digit run. -/
def digitsToNat (ds : List Char) : ℕ :=
  ds.foldl (fun n c => 10 * n + (c.toNat - 48)) 0

/-- The port-parsing tail of `JmxStat.get_pid_port` (src lines 122-123):
`status.splitlines()[1]`, split on a colon, take the third field and the
first digit run in it.  Each indexing step raises IndexError (modelled as
`Except.error`) when the status output does not have the expected shape. -/
def parse_status_port (status : String) : Except String ℕ :=
  match (pySplitlines status).get? 1 with
  | none => .error "IndexError: status has no second line"
  | some joloip =>
    match (splitOnChar (Char.ofNat 58) joloip).get? 2 with
    | none => .error "IndexError: no third colon field"
    | some field =>
      match digitRuns field with
      | [] => .error "IndexError: no digits in port field"
      | ds :: _ => .ok (digitsToNat ds)

/-- `JmxStat.get_pid_port(pid)` (src lines 109-125).  `statusOut` and
`startOut` are the `(stdout, stderr, returncode)` results of the jolokia
`status` and `start` commands, `freePort` the port picked by
`get_free_port`.  Returns `some port` on success, `none` for the logged
`return False` failure, and `Except.error` when parsing the status output
raises an uncaught IndexError. -/
def get_pid_port (statusOut : String × String × Int)
    (startOut : String × String × Int) (freePort : ℕ) :
    Except String (Option ℕ) :=
  let (status, err, ret) := statusOut
  if err ≠ "" ∨ ret ≠ 0 then
    let (_, serr, sret) := startOut
    if serr ≠ "" ∨ sret ≠ 0 then .ok none
    else .ok (some freePort)
  else
    (parse_status_port status).map some

/- ## Claim C1: get_rate -/

/-- The soft-failure condition of `get_rate`: no previous sample, key absent
from the previous sample, a missing timestamp, or a non-increasing
timestamp. -/
def rateNanCond (key : String) (curr prev : Dict) : Prop :=
  prev = [] ∨ dictHas prev key = false ∨
  dictHas curr TIMESTAMP = false ∨ dictHas prev TIMESTAMP = false ∨
  JVal.le ((alGet curr TIMESTAMP).getD (.num 0))
    ((alGet prev TIMESTAMP).getD (.num 0)) = true

instance (key : String) (curr prev : Dict) : Decidable (rateNanCond key curr prev) := by
  unfold rateNanCond
  infer_instance

/-- C1 (counterexample): when every NaN condition is absent but the key is
missing from the *current* sample, `get_rate` neither returns the NaN
sentinel nor the claimed quotient — it raises an uncaught KeyError at the
subtraction, because only membership in the previous sample is checked. -/
theorem get_rate_missing_current_key_cex :
    get_rate 60 "packetsReceived" [(TIMESTAMP, JVal.num 2)]
      [(TIMESTAMP, JVal.num 1), ("packetsReceived", JVal.num 5)]
      = RateResult.exn := by decide

/-- C1 (amended): `get_rate` returns the NaN sentinel exactly under the four
soft-failure conditions; when none holds and the key is additionally present
in the current sample with numeric values in both samples, it returns
`(curr[key] - prev[key]) / interval` with negative results clamped to 0; any
returned rate is non-negative.  (If the key is absent from the current
sample the call raises instead, see the counterexample.) -/
theorem get_rate_nan_iff_and_clamped (interval c p : ℚ) (key : String)
    (curr prev : Dict) (hi : 0 < interval) :
    (get_rate interval key curr prev = RateResult.nan ↔ rateNanCond key curr prev)
    ∧ (¬ rateNanCond key curr prev →
        alGet curr key = some (JVal.num c) → alGet prev key = some (JVal.num p) →
        get_rate interval key curr prev
          = RateResult.val (if (c - p) / interval < 0 then 0 else (c - p) / interval))
    ∧ (∀ q, get_rate interval key curr prev = RateResult.val q → 0 ≤ q) := by
  have hne : interval ≠ 0 := ne_of_gt hi
  refine ⟨?_, ?_, ?_⟩
  · unfold get_rate
    split_ifs with h1 h2 h3 h4
    · simp [rateNanCond, h1]
    · simp [rateNanCond, h2]
    · rcases h3 with h3 | h3 <;> simp [rateNanCond, h3]
    · simp [rateNanCond, h4]
    · have : ¬ rateNanCond key curr prev := by
        simp only [rateNanCond, not_or]
        push_neg at h3
        exact ⟨h1, h2, h3.1, h3.2, h4⟩
      rcases hc : alGet curr key with _ | v
      · simp [hc, this]
      · rcases hp : alGet prev key with _ | w
        · cases v <;> simp [hc, hp, this]
        · cases v <;> cases w <;> (simp [hc, hp, this, hne]; try (split_ifs <;> simp))
  · intro hcond hck hpk
    simp only [rateNanCond, not_or] at hcond
    obtain ⟨h1, h2, h3, h4, h5⟩ := hcond
    unfold get_rate
    rw [if_neg h1, if_neg (by simp [h2]), if_neg (by simp [h3, h4]),
      if_neg (by simp [h5]), hck, hpk]
    simp only [if_neg hne]
    split_ifs <;> rfl
  · intro q hq
    unfold get_rate at hq
    split at hq
    · exact absurd hq (by simp)
    split at hq
    · exact absurd hq (by simp)
    split at hq
    · exact absurd hq (by simp)
    split at hq
    · exact absurd hq (by simp)
    split at hq
    next c2 p2 heq1 heq2 =>
      by_cases hz : (c2 - p2) / interval < 0
      · rw [if_pos hz] at hq
        injection hq with h
        rw [← h]
      · rw [if_neg hz] at hq
        injection hq with h
        rw [← h]
        push_neg at hz
        exact hz
    next => exact absurd hq (by simp)

/-- C1 (witness): a fully valid pair of samples with counters 7 and 3 over a
60 second interval yields the positive rate 4/60 = 1/15. -/
theorem get_rate_nan_iff_and_clamped_witness :
    get_rate 60 "k" [(TIMESTAMP, JVal.num 2), ("k", JVal.num 7)]
      [(TIMESTAMP, JVal.num 1), ("k", JVal.num 3)] = RateResult.val (1/15) := by
  have h := (get_rate_nan_iff_and_clamped 60 7 3 "k"
      [(TIMESTAMP, JVal.num 2), ("k", JVal.num 7)]
      [(TIMESTAMP, JVal.num 1), ("k", JVal.num 3)] (by norm_num)).2.1
      (by decide) (by decide) (by decide)
  rw [h]
  norm_num

/- ## add_rate_dispatch helpers -/

/-- Optionally set a rate key: `none` models the skipped NaN case. -/
def optSet (d : Dict) (k : String) : Option ℚ → Dict
  | none => d
  | some q => alSet d k (.num q)

theorem alGet_optSet_ne (d : Dict) (k k2 : String) (o : Option ℚ)
    (h : k ≠ k2) : alGet (optSet d k o) k2 = alGet d k2 := by
  cases o with
  | none => rfl
  | some q => exact alGet_set_ne d k2 k _ h

theorem dictHas_optSet_mono (d : Dict) (k k2 : String) (o : Option ℚ)
    (h : dictHas d k2 = true) : dictHas (optSet d k o) k2 = true := by
  cases o with
  | none => exact h
  | some q => exact dictHas_set_mono d k2 k _ h

/-- Successful runs of `add_rate` only add/overwrite the two rate keys. -/
theorem add_rate_ok_form (interval : ℚ) (pid_prev d d2 : Dict)
    (h : add_rate interval pid_prev d = Except.ok d2) :
    ∃ o1 o2, d2 = optSet (optSet d "packetsReceivedRate" o1) "packetsSentRate" o2 := by
  unfold add_rate at h
  rcases hr1 : get_rate interval "packetsReceived" d pid_prev with _ | q1 | _ <;>
    rw [hr1] at h <;> simp only [Except.ok.injEq, reduceCtorEq] at h
  · rcases hr2 : get_rate interval "packetsSent" d pid_prev with _ | q2 | _ <;>
      rw [hr2] at h <;> simp only [Except.ok.injEq, reduceCtorEq] at h
    · exact ⟨none, none, h.symm⟩
    · exact ⟨none, some (pyRoundAt q2 FLOATING_FACTOR), h.symm⟩
  · rcases hr2 : get_rate interval "packetsSent"
        (alSet d "packetsReceivedRate" (.num (pyRoundAt q1 FLOATING_FACTOR))) pid_prev
        with _ | q2 | _ <;>
      rw [hr2] at h <;> simp only [Except.ok.injEq, reduceCtorEq] at h
    · exact ⟨some (pyRoundAt q1 FLOATING_FACTOR), none, h.symm⟩
    · exact ⟨some (pyRoundAt q1 FLOATING_FACTOR), some (pyRoundAt q2 FLOATING_FACTOR), h.symm⟩

/-- Successful runs of `dispatch_data` on the rate-bearing category strip
exactly the two raw counters. -/
theorem dispatch_data_zk_ok (st disp : Dict)
    (h : dispatch_data "zookeeperStats" st = Except.ok disp) :
    disp = alDel (alDel st "packetsSent") "packetsReceived"
    ∧ dictHas st "packetsSent" = true ∧ dictHas st "packetsReceived" = true := by
  unfold dispatch_data at h
  rw [if_pos rfl] at h
  by_cases h1 : dictHas st "packetsSent"
  · rw [if_pos h1] at h
    by_cases h2 : dictHas (alDel st "packetsSent") "packetsReceived"
    · rw [if_pos h2] at h
      refine ⟨by injection h with h3; exact h3.symm, h1, ?_⟩
      rwa [dictHas_del_ne st "packetsReceived" "packetsSent" (by decide)] at h2
    · rw [if_neg h2] at h
      exact absurd h (by simp)
  · rw [if_neg h1] at h
    exact absurd h (by simp)

/-- A successful `add_rate_dispatch` on the rate-bearing category stores the
rate-augmented current sample under the pid and forwards that same value with
the two raw counters stripped. -/
theorem ard_ok_form (interval : ℚ) (prev : List (String × Dict))
    (pid : String) (d : Dict) (np : List (String × Dict)) (disp : Dict)
    (h : add_rate_dispatch interval prev pid "zookeeperStats" d = ARDOut.ok np disp) :
    ∃ st, np = alSet prev pid st
      ∧ disp = alDel (alDel st "packetsSent") "packetsReceived"
      ∧ dictHas st "packetsSent" = true ∧ dictHas st "packetsReceived" = true
      ∧ ∃ o1 o2, st = optSet (optSet d "packetsReceivedRate" o1) "packetsSentRate" o2 := by
  unfold add_rate_dispatch at h
  split at h
  next e heq => exact absurd h (by simp)
  next d2 heq =>
    split at h
    next e heq2 => exact absurd h (by simp)
    next out heq2 =>
      injection h with hnp hout
      obtain ⟨hd, h1, h2⟩ := dispatch_data_zk_ok d2 out heq2
      refine ⟨d2, hnp.symm, by rw [← hout, hd], h1, h2, ?_⟩
      by_cases hmem : (alGet prev pid).isSome
      · rw [if_pos hmem] at heq
        exact add_rate_ok_form interval ((alGet prev pid).getD []) d d2 heq
      · rw [if_neg hmem] at heq
        injection heq with heq3
        exact ⟨some 0, some 0, heq3.symm⟩

/- ## Claim C2: first-poll defaults -/

/-- C2: for a pid with no entry in the rate-state map, `add_rate_dispatch`
attaches `packetsReceivedRate = 0` and `packetsSentRate = 0` to the
dispatched record, and afterwards the rate-state map holds the current
sample (the input record plus the two zero rate fields, agreeing with the
input everywhere else) under that pid. -/
theorem add_rate_dispatch_first_poll (interval : ℚ) (prev : List (String × Dict))
    (pid : String) (d : Dict)
    (hnew : alGet prev pid = none)
    (hr : dictHas d "packetsReceived" = true) (hs : dictHas d "packetsSent" = true) :
    ∃ stored dispd,
      add_rate_dispatch interval prev pid "zookeeperStats" d
        = ARDOut.ok (alSet prev pid stored) dispd
      ∧ stored = add_default_rate_value d
      ∧ alGet (alSet prev pid stored) pid = some stored
      ∧ alGet dispd "packetsReceivedRate" = some (JVal.num 0)
      ∧ alGet dispd "packetsSentRate" = some (JVal.num 0)
      ∧ ∀ k, k ≠ "packetsReceivedRate" → k ≠ "packetsSentRate" →
          alGet stored k = alGet d k := by
  have hs2 : dictHas (add_default_rate_value d) "packetsSent" = true :=
    dictHas_set_mono _ _ _ _ (dictHas_set_mono _ _ _ _ hs)
  have hr2 : dictHas (alDel (add_default_rate_value d) "packetsSent") "packetsReceived" = true := by
    rw [dictHas_del_ne _ _ _ (by decide)]
    exact dictHas_set_mono _ _ _ _ (dictHas_set_mono _ _ _ _ hr)
  have hdd : dispatch_data "zookeeperStats" (add_default_rate_value d)
      = Except.ok (alDel (alDel (add_default_rate_value d) "packetsSent") "packetsReceived") := by
    simp only [dispatch_data, if_pos rfl, hs2, hr2, if_true]
  refine ⟨add_default_rate_value d,
    alDel (alDel (add_default_rate_value d) "packetsSent") "packetsReceived",
    ?_, rfl, alGet_set_self _ _ _, ?_, ?_, ?_⟩
  · unfold add_rate_dispatch
    simp only [hnew, Option.isSome_none, Bool.false_eq_true, if_false, hdd]
  · rw [alGet_del_ne _ _ _ (by decide), alGet_del_ne _ _ _ (by decide)]
    unfold add_default_rate_value
    rw [alGet_set_ne _ _ _ _ (by decide)]
    exact alGet_set_self _ _ _
  · rw [alGet_del_ne _ _ _ (by decide), alGet_del_ne _ _ _ (by decide)]
    exact alGet_set_self _ _ _
  · intro k h1 h2
    unfold add_default_rate_value
    rw [alGet_set_ne _ _ _ _ (Ne.symm h2), alGet_set_ne _ _ _ _ (Ne.symm h1)]

/-- C2 (witness): a concrete first poll for pid 222 dispatches both rate
fields as 0 and stores the augmented sample. -/
theorem add_rate_dispatch_first_poll_witness :
    ∃ stored dispd,
      add_rate_dispatch 60 [] "222" "zookeeperStats"
          [(TIMESTAMP, JVal.num 5), ("packetsReceived", JVal.num 7), ("packetsSent", JVal.num 3)]
        = ARDOut.ok (alSet [] "222" stored) dispd
      ∧ stored = add_default_rate_value
          [(TIMESTAMP, JVal.num 5), ("packetsReceived", JVal.num 7), ("packetsSent", JVal.num 3)]
      ∧ alGet (alSet [] "222" stored) "222" = some stored
      ∧ alGet dispd "packetsReceivedRate" = some (JVal.num 0)
      ∧ alGet dispd "packetsSentRate" = some (JVal.num 0)
      ∧ ∀ k, k ≠ "packetsReceivedRate" → k ≠ "packetsSentRate" →
          alGet stored k = alGet
            [(TIMESTAMP, JVal.num 5), ("packetsReceived", JVal.num 7), ("packetsSent", JVal.num 3)] k :=
  add_rate_dispatch_first_poll 60 [] "222"
    [(TIMESTAMP, JVal.num 5), ("packetsReceived", JVal.num 7), ("packetsSent", JVal.num 3)]
    (by decide) (by decide) (by decide)

/- ## Claim C3: what is stored and what is forwarded -/

/-- C3 (counterexample): the sample stored in the rate-state map is not the
pre-rate current sample — it additionally carries the attached rate fields
(the code stores `dict_jmx` after mutating it in place). -/
theorem add_rate_dispatch_stores_post_rate_cex :
    add_rate_dispatch 60 [] "111" "zookeeperStats"
        [(TIMESTAMP, JVal.num 1), ("packetsReceived", JVal.num 100), ("packetsSent", JVal.num 50)]
      = ARDOut.ok
          [("111", [(TIMESTAMP, JVal.num 1), ("packetsReceived", JVal.num 100),
                    ("packetsSent", JVal.num 50), ("packetsReceivedRate", JVal.num 0),
                    ("packetsSentRate", JVal.num 0)])]
          [(TIMESTAMP, JVal.num 1), ("packetsReceivedRate", JVal.num 0),
           ("packetsSentRate", JVal.num 0)]
    ∧ ([(TIMESTAMP, JVal.num 1), ("packetsReceived", JVal.num 100),
        ("packetsSent", JVal.num 50), ("packetsReceivedRate", JVal.num 0),
        ("packetsSentRate", JVal.num 0)] : Dict)
      ≠ [(TIMESTAMP, JVal.num 1), ("packetsReceived", JVal.num 100),
         ("packetsSent", JVal.num 50)] := by
  decide

/-- C3 (amended): on a successful `add_rate_dispatch` the rate-state map
stores the current sample with the rate fields attached (agreeing with the
pre-rate sample on every other key), and the record forwarded to dispatch is
a value copy of that stored sample with the two raw counters stripped — so
the stripping performed on the dispatched record leaves the stored sample
unchanged (it still contains both counters). -/
theorem add_rate_dispatch_store_and_copy (interval : ℚ)
    (prev : List (String × Dict)) (pid : String) (d : Dict)
    (np : List (String × Dict)) (disp : Dict)
    (h : add_rate_dispatch interval prev pid "zookeeperStats" d = ARDOut.ok np disp) :
    ∃ st, alGet np pid = some st
      ∧ disp = alDel (alDel st "packetsSent") "packetsReceived"
      ∧ (∀ k, k ≠ "packetsReceivedRate" → k ≠ "packetsSentRate" → alGet st k = alGet d k)
      ∧ dictHas st "packetsReceived" = true ∧ dictHas st "packetsSent" = true
      ∧ dictHas disp "packetsReceived" = false ∧ dictHas disp "packetsSent" = false := by
  obtain ⟨st, hnp, hdisp, hps, hpr, o1, o2, hst⟩ :=
    ard_ok_form interval prev pid d np disp h
  refine ⟨st, by rw [hnp]; exact alGet_set_self _ _ _, hdisp, ?_, hpr, hps, ?_, ?_⟩
  · intro k h1 h2
    rw [hst, alGet_optSet_ne _ _ _ _ (Ne.symm h2), alGet_optSet_ne _ _ _ _ (Ne.symm h1)]
  · rw [hdisp]
    exact dictHas_del_self _ _
  · rw [hdisp, dictHas_del_ne _ _ _ (by decide)]
    exact dictHas_del_self _ _

/-- C3 (witness): a concrete second poll; the stored sample carries the
computed rates 1.0 and 0.5 and keeps both raw counters, while the dispatched
copy has the counters stripped. -/
theorem add_rate_dispatch_store_and_copy_witness :
    ∃ st, alGet [("111", [(TIMESTAMP, JVal.num 61), ("packetsReceived", JVal.num 100),
        ("packetsSent", JVal.num 50), ("packetsReceivedRate", JVal.num 1),
        ("packetsSentRate", JVal.num (1/2))])] "111" = some st
      ∧ ([(TIMESTAMP, JVal.num 61), ("packetsReceivedRate", JVal.num 1),
          ("packetsSentRate", JVal.num (1/2))] : Dict)
        = alDel (alDel st "packetsSent") "packetsReceived"
      ∧ (∀ k, k ≠ "packetsReceivedRate" → k ≠ "packetsSentRate" →
          alGet st k = alGet [(TIMESTAMP, JVal.num 61), ("packetsReceived", JVal.num 100),
            ("packetsSent", JVal.num 50)] k)
      ∧ dictHas st "packetsReceived" = true ∧ dictHas st "packetsSent" = true
      ∧ dictHas ([(TIMESTAMP, JVal.num 61), ("packetsReceivedRate", JVal.num 1),
          ("packetsSentRate", JVal.num (1/2))] : Dict) "packetsReceived" = false
      ∧ dictHas ([(TIMESTAMP, JVal.num 61), ("packetsReceivedRate", JVal.num 1),
          ("packetsSentRate", JVal.num (1/2))] : Dict) "packetsSent" = false :=
  add_rate_dispatch_store_and_copy 60
    [("111", [(TIMESTAMP, JVal.num 1), ("packetsReceived", JVal.num 40),
              ("packetsSent", JVal.num 20)])]
    "111"
    [(TIMESTAMP, JVal.num 61), ("packetsReceived", JVal.num 100), ("packetsSent", JVal.num 50)]
    [("111", [(TIMESTAMP, JVal.num 61), ("packetsReceived", JVal.num 100),
        ("packetsSent", JVal.num 50), ("packetsReceivedRate", JVal.num 1),
        ("packetsSentRate", JVal.num (1/2))])]
    [(TIMESTAMP, JVal.num 61), ("packetsReceivedRate", JVal.num 1),
     ("packetsSentRate", JVal.num (1/2))]
    (by
      simp +decide only [add_rate_dispatch, add_rate, get_rate, dispatch_data,
        add_default_rate_value, dictHas, alGet, alSet, alDel, TIMESTAMP, JVal.le,
        FLOATING_FACTOR]
      norm_num [pyRoundAt]
      simp +decide only [add_rate_dispatch, add_rate, get_rate, dispatch_data,
        add_default_rate_value, dictHas, alGet, alSet, alDel, TIMESTAMP, JVal.le,
        FLOATING_FACTOR]
      norm_num [pyRoundAt]
      simp +decide [dispatch_data, dictHas, alGet, alDel])

/- ## Claim C4: stripping of the raw counters -/

/-- C4: every rate-bearing record that reaches `utils.dispatch` lacks both
raw monotonic counters (and agrees with the pre-strip record on every other
key), while the sample kept for rate computation — the one `add_rate_dispatch`
stores in the rate-state map — still contains both counters. -/
theorem dispatch_strips_raw_counters (d out : Dict) (interval : ℚ)
    (prev : List (String × Dict)) (pid : String) (d2 : Dict)
    (np : List (String × Dict)) (disp : Dict)
    (h : dispatch_data "zookeeperStats" d = Except.ok out)
    (h2 : add_rate_dispatch interval prev pid "zookeeperStats" d2 = ARDOut.ok np disp) :
    dictHas out "packetsReceived" = false ∧ dictHas out "packetsSent" = false
    ∧ (∀ k, k ≠ "packetsReceived" → k ≠ "packetsSent" → alGet out k = alGet d k)
    ∧ ∃ st, alGet np pid = some st ∧ dictHas st "packetsReceived" = true
        ∧ dictHas st "packetsSent" = true := by
  obtain ⟨hd, hs, hr⟩ := dispatch_data_zk_ok d out h
  obtain ⟨st, hnp, hdisp, hps, hpr, _⟩ := ard_ok_form interval prev pid d2 np disp h2
  refine ⟨?_, ?_, ?_, st, by rw [hnp]; exact alGet_set_self _ _ _, hpr, hps⟩
  · rw [hd]
    exact dictHas_del_self _ _
  · rw [hd, dictHas_del_ne _ _ _ (by decide)]
    exact dictHas_del_self _ _
  · intro k h1 h2
    rw [hd, alGet_del_ne _ _ _ (Ne.symm h1), alGet_del_ne _ _ _ (Ne.symm h2)]

/-- C4 (witness): a concrete dispatched zookeeperStats record keeps its other
fields and loses both counters; a concrete first poll retains the counters in
the stored state. -/
theorem dispatch_strips_raw_counters_witness :
    dictHas ([(TIMESTAMP, JVal.num 9), ("nodeCount", JVal.num 11)] : Dict) "packetsReceived" = false
    ∧ dictHas ([(TIMESTAMP, JVal.num 9), ("nodeCount", JVal.num 11)] : Dict) "packetsSent" = false
    ∧ (∀ k, k ≠ "packetsReceived" → k ≠ "packetsSent" →
        alGet ([(TIMESTAMP, JVal.num 9), ("nodeCount", JVal.num 11)] : Dict) k
          = alGet [(TIMESTAMP, JVal.num 9), ("packetsReceived", JVal.num 4),
                   ("packetsSent", JVal.num 2), ("nodeCount", JVal.num 11)] k)
    ∧ ∃ st, alGet [("333", [(TIMESTAMP, JVal.num 5), ("packetsReceived", JVal.num 8),
          ("packetsSent", JVal.num 6), ("packetsReceivedRate", JVal.num 0),
          ("packetsSentRate", JVal.num 0)])] "333" = some st
        ∧ dictHas st "packetsReceived" = true ∧ dictHas st "packetsSent" = true :=
  dispatch_strips_raw_counters
    [(TIMESTAMP, JVal.num 9), ("packetsReceived", JVal.num 4),
     ("packetsSent", JVal.num 2), ("nodeCount", JVal.num 11)]
    [(TIMESTAMP, JVal.num 9), ("nodeCount", JVal.num 11)]
    60 [] "333"
    [(TIMESTAMP, JVal.num 5), ("packetsReceived", JVal.num 8), ("packetsSent", JVal.num 6)]
    [("333", [(TIMESTAMP, JVal.num 5), ("packetsReceived", JVal.num 8),
        ("packetsSent", JVal.num 6), ("packetsReceivedRate", JVal.num 0),
        ("packetsSentRate", JVal.num 0)])]
    [(TIMESTAMP, JVal.num 5), ("packetsReceivedRate", JVal.num 0), ("packetsSentRate", JVal.num 0)]
    (by decide) (by decide)

/- ## Claim C5: Drain accounting -/

/-- On a drain that raises no exception: each of the `pulls` non-blocking
pulls either pops the FIFO head and dispatches it or logs one loss, so the
loss count and the dispatch count are determined by the queue length. -/
theorem drainLoop_counts (interval : ℚ) (pulls : ℕ) :
    ∀ (queue : List (String × String × Dict)) (prev : List (String × Dict))
      (acc : List Dict) (lost : ℕ) (r : DrainRes),
      drainLoop interval pulls queue prev acc lost = Except.ok r →
      r.lost = lost + (pulls - min queue.length pulls)
      ∧ r.dispatched.length = acc.length + min queue.length pulls := by
  induction pulls with
  | zero =>
    intro queue prev acc lost r h
    unfold drainLoop at h
    injection h with h
    subst h
    simp
  | succ n ih =>
    intro queue prev acc lost r h
    cases queue with
    | nil =>
      unfold drainLoop at h
      obtain ⟨h1, h2⟩ := ih [] prev acc (lost + 1) r h
      constructor
      · rw [h1]
        simp
        omega
      · rw [h2]
        simp
    | cons t rest =>
      obtain ⟨pid, doc, dct⟩ := t
      unfold drainLoop at h
      by_cases hdoc : doc = "zookeeperStats"
      · rw [if_pos hdoc] at h
        split at h
        next e heq => exact absurd h (by simp)
        next e2 heq => exact absurd h (by simp)
        next newPrev disp heq =>
          obtain ⟨h1, h2⟩ := ih rest newPrev (disp :: acc) lost r h
          refine ⟨by rw [h1]; simp [Nat.succ_min_succ], by rw [h2]; simp [Nat.succ_min_succ]; omega⟩
      · rw [if_neg hdoc] at h
        split at h
        next e heq => exact absurd h (by simp)
        next out heq =>
          obtain ⟨h1, h2⟩ := ih rest prev (out :: acc) lost r h
          refine ⟨by rw [h1]; simp [Nat.succ_min_succ], by rw [h2]; simp [Nat.succ_min_succ]; omega⟩

/-- C5: after joining the workers, the orchestrator performs exactly
`#workers * #categories` non-blocking pulls; on a cycle whose dispatches all
succeed, every empty pull is logged as exactly one lost-result anomaly and
every pulled tuple is dispatched, so `lost = pulls - min |queue| pulls` and
`#dispatched = min |queue| pulls`. -/
theorem collect_drain_counts (interval : ℚ) (nprocs : ℕ)
    (queue : List (String × String × Dict)) (prev : List (String × Dict))
    (r : DrainRes) (h : collect_drain interval nprocs queue prev = Except.ok r) :
    r.lost = nprocs * 2 - min queue.length (nprocs * 2)
    ∧ r.dispatched.length = min queue.length (nprocs * 2) := by
  have h2 := drainLoop_counts interval (nprocs * ZOOK_DOCS.length) queue prev [] 0 r h
  simpa [ZOOK_DOCS] using h2

/-- C5 (witness): the spec scenario — 2 workers, 2 categories, only 3 tuples
present — logs exactly one loss and dispatches all 3 records. -/
theorem collect_drain_counts_witness :
    collect_drain 60 2
        [("111", "zookeeperStats",
          [(TIMESTAMP, JVal.num 1), ("packetsReceived", JVal.num 100), ("packetsSent", JVal.num 50)]),
         ("111", "jmxStats", [("threads", JVal.num 1)]),
         ("222", "jmxStats", [("threads", JVal.num 2)])] []
      = Except.ok
          ⟨[("111", [(TIMESTAMP, JVal.num 1), ("packetsReceived", JVal.num 100),
              ("packetsSent", JVal.num 50), ("packetsReceivedRate", JVal.num 0),
              ("packetsSentRate", JVal.num 0)])],
           [[(TIMESTAMP, JVal.num 1), ("packetsReceivedRate", JVal.num 0),
             ("packetsSentRate", JVal.num 0)],
            [("threads", JVal.num 1)], [("threads", JVal.num 2)]],
           1⟩
    ∧ (1 : ℕ) = 2 * 2 - min 3 (2 * 2) ∧ (3 : ℕ) = min 3 (2 * 2) := by
  have h : collect_drain 60 2
      [("111", "zookeeperStats",
        [(TIMESTAMP, JVal.num 1), ("packetsReceived", JVal.num 100), ("packetsSent", JVal.num 50)]),
       ("111", "jmxStats", [("threads", JVal.num 1)]),
       ("222", "jmxStats", [("threads", JVal.num 2)])] []
      = Except.ok
          ⟨[("111", [(TIMESTAMP, JVal.num 1), ("packetsReceived", JVal.num 100),
              ("packetsSent", JVal.num 50), ("packetsReceivedRate", JVal.num 0),
              ("packetsSentRate", JVal.num 0)])],
           [[(TIMESTAMP, JVal.num 1), ("packetsReceivedRate", JVal.num 0),
             ("packetsSentRate", JVal.num 0)],
            [("threads", JVal.num 1)], [("threads", JVal.num 2)]],
           1⟩ := by decide
  have h2 := collect_drain_counts 60 2
      [("111", "zookeeperStats",
        [(TIMESTAMP, JVal.num 1), ("packetsReceived", JVal.num 100), ("packetsSent", JVal.num 50)]),
       ("111", "jmxStats", [("threads", JVal.num 1)]),
       ("222", "jmxStats", [("threads", JVal.num 2)])] [] _ h
  exact ⟨h, by simpa using h2.1, by simpa using h2.2⟩

/- ## Claim C6: sentinel-preserving byte conversion -/

/-- `handle_neg_bytes` is a single keyed store of the sentinel-preserving
conversion of its input. -/
theorem handle_neg_bytes_as_set (v : ℚ) (k : String) (d : Dict) :
    handle_neg_bytes v k d
      = alSet d k (if v = -1 then JVal.num v
                   else JVal.num (pyRoundAt (v / 1024 / 1024) 2)) := by
  unfold handle_neg_bytes
  by_cases h : v = -1 <;> simp [h]

/-- C6: the byte-conversion helper stores -1 verbatim and otherwise
`round(value/1024/1024, 2)`; and exactly this sentinel-preserving conversion
is what every init/max memory attribute of the memory category receives
(heap and non-heap init and max). -/
theorem handle_neg_bytes_sentinel (v : ℚ) (k : String) (d : Dict)
    (mv : MemoryValue) (d0 : Dict) :
    alGet (handle_neg_bytes v k d) k
      = some (if v = -1 then JVal.num v else JVal.num (pyRoundAt (v / 1024 / 1024) 2))
    ∧ alGet (add_memory_parameters (some mv) d0) "heapMemoryUsageInit"
      = some (if mv.heap.init = -1 then JVal.num mv.heap.init
              else JVal.num (pyRoundAt (mv.heap.init / 1024 / 1024) 2))
    ∧ alGet (add_memory_parameters (some mv) d0) "heapMemoryUsageMax"
      = some (if mv.heap.max = -1 then JVal.num mv.heap.max
              else JVal.num (pyRoundAt (mv.heap.max / 1024 / 1024) 2))
    ∧ alGet (add_memory_parameters (some mv) d0) "nonHeapMemoryUsageInit"
      = some (if mv.nonHeap.init = -1 then JVal.num mv.nonHeap.init
              else JVal.num (pyRoundAt (mv.nonHeap.init / 1024 / 1024) 2))
    ∧ alGet (add_memory_parameters (some mv) d0) "nonHeapMemoryUsageMax"
      = some (if mv.nonHeap.max = -1 then JVal.num mv.nonHeap.max
              else JVal.num (pyRoundAt (mv.nonHeap.max / 1024 / 1024) 2)) := by
  refine ⟨?_, ?_, ?_, ?_, ?_⟩ <;>
    simp [add_memory_parameters, handle_neg_bytes_as_set, alGet_set]

/- ## Claim C7: nanosecond-time guards -/

/-- C7 (counterexample): a current-thread CPU time of -1 (the unsupported
sentinel) with `CurrentThreadCpuTimeSupported` true is converted, not stored
verbatim: the record holds `round(-1/1e9, 2) = 0`, not -1. -/
theorem thread_cpu_time_no_guard_cex :
    alGet (add_threading_parameters
        (some ⟨5, 6, 2, 9, true, -1, -1⟩) []) "currentThreadCpuTime"
      = some (JVal.num 0)
    ∧ some (JVal.num 0) ≠ some (JVal.num (-1)) := by
  constructor
  · simp +decide only [add_threading_parameters, alGet, alSet]
    norm_num [pyRoundAt]
  · decide

/-- C7 (amended): `processCpuTime` has the non-negative guard (a negative
raw value bypasses conversion and is stored verbatim, a non-negative one is
stored as `round(value/1e9, 2)`); `currentThreadCpuTime` and
`currentThreadUserTime` are gated only by the
`CurrentThreadCpuTimeSupported` flag and, when that flag is true, are
converted unconditionally with no sign guard (and omitted when it is
false). -/
theorem cpu_time_guard_amended (ov : OSValue) (tv : ThreadingValue) (d1 d2 : Dict) :
    alGet (add_operating_system_parameters (some ov) d1) "processCpuTime"
      = some (JVal.num (if 0 ≤ ov.processCpuTime
          then pyRoundAt (ov.processCpuTime / 1000000000) 2 else ov.processCpuTime))
    ∧ (tv.currentThreadCpuTimeSupported = true →
        alGet (add_threading_parameters (some tv) d2) "currentThreadCpuTime"
          = some (JVal.num (pyRoundAt (tv.currentThreadCpuTime / 1000000000) 2))
        ∧ alGet (add_threading_parameters (some tv) d2) "currentThreadUserTime"
          = some (JVal.num (pyRoundAt (tv.currentThreadUserTime / 1000000000) 2)))
    ∧ (tv.currentThreadCpuTimeSupported = false →
        alGet (add_threading_parameters (some tv) d2) "currentThreadCpuTime"
          = alGet d2 "currentThreadCpuTime"
        ∧ alGet (add_threading_parameters (some tv) d2) "currentThreadUserTime"
          = alGet d2 "currentThreadUserTime") := by
  refine ⟨?_, fun hsup => ?_, fun hsup => ?_⟩
  · simp [add_operating_system_parameters, alGet_set]
  · constructor <;> simp [add_threading_parameters, hsup, alGet_set]
  · constructor <;> simp [add_threading_parameters, hsup, alGet_set]

/-- C7 (witness): with `ProcessCpuTime = -1` the OS record stores -1
verbatim; with the support flag true and a 2-second (2e9 ns) thread CPU
time, the threading record stores 2.0. -/
theorem cpu_time_guard_amended_witness :
    alGet (add_operating_system_parameters
        (some ⟨"amd64", 4, 1000, 2048, 512, 1024, "Linux", 9, 1/2, -1, 4096, 1024,
               "3.10", 1/4, 1/5⟩) []) "processCpuTime"
      = some (JVal.num (-1))
    ∧ alGet (add_threading_parameters
        (some ⟨5, 6, 2, 9, true, 2000000000, 1000000000⟩) []) "currentThreadCpuTime"
      = some (JVal.num 2) := by
  constructor
  · have h := (cpu_time_guard_amended
        ⟨"amd64", 4, 1000, 2048, 512, 1024, "Linux", 9, 1/2, -1, 4096, 1024,
         "3.10", 1/4, 1/5⟩ ⟨5, 6, 2, 9, true, 2000000000, 1000000000⟩ [] []).1
    norm_num at h
    exact h
  · have h := ((cpu_time_guard_amended
        ⟨"amd64", 4, 1000, 2048, 512, 1024, "Linux", 9, 1/2, -1, 4096, 1024,
         "3.10", 1/4, 1/5⟩ ⟨5, 6, 2, 9, true, 2000000000, 1000000000⟩ [] []).2.1 rfl).1
    norm_num [pyRoundAt] at h
    exact h

/- ## Claim C8: allow-list policy for pools and collectors -/

/-- The memory-pool name getter keeps exactly the allow-listed discovered
names (in order) and reports exactly the others. -/
theorem get_memory_pool_names_filter (names : List String) :
    get_memory_pool_names (some names)
      = (names.filter (fun n => decide (n ∈ DEFAULT_MP)),
         names.filter (fun n => decide (n ∉ DEFAULT_MP))) := by
  unfold get_memory_pool_names
  induction names with
  | nil => rfl
  | cons n rest ih =>
    by_cases h : n ∈ DEFAULT_MP <;>
      simp [get_memory_pool_names.go, h, List.filter, Prod.ext_iff] at ih ⊢ <;>
      exact ih

/-- The GC name getter keeps exactly the allow-listed discovered names (in
order) and reports exactly the others. -/
theorem get_gc_names_filter (names : List String) :
    get_gc_names (some names)
      = (names.filter (fun n => decide (n ∈ DEFAULT_GC)),
         names.filter (fun n => decide (n ∉ DEFAULT_GC))) := by
  unfold get_gc_names
  induction names with
  | nil => rfl
  | cons n rest ih =>
    by_cases h : n ∈ DEFAULT_GC <;>
      simp [get_gc_names.go, h, List.filter, Prod.ext_iff] at ih ⊢ <;>
      exact ih

/-- A discovered pool name outside the allow-list contributes nothing to the
memory-pool category record. -/
theorem mp_zero_contribution (env : MPEnv) (names : List String) (bad : String)
    (d : Dict) (hbad : bad ∉ DEFAULT_MP) :
    add_memory_pool_parameters env (some (bad :: names)) d
      = add_memory_pool_parameters env (some names) d := by
  unfold add_memory_pool_parameters get_memory_pool_names
  simp [get_memory_pool_names.go, hbad]

/-- A discovered GC name outside the allow-list contributes nothing to the
jmxStats category record. -/
theorem gc_zero_contribution (env : JmxEnv) (d : Dict) (bad : String)
    (names : List String) (mpd : Option (List String)) (hbad : bad ∉ DEFAULT_GC) :
    add_jmxstats_parameters env (some (bad :: names)) mpd d
      = add_jmxstats_parameters env (some names) mpd d := by
  unfold add_jmxstats_parameters get_gc_names
  simp [get_gc_names.go, hbad]

set_option maxHeartbeats 4000000 in
/-- An allow-listed, valid pool with a full status-200 read (CollectionUsage
present, neither threshold supported) produces its full field set. -/
theorem mp_pool_full_fields (env : MPEnv) (d : Dict) (pool_name : String)
    (v : MPValues) (cu : MemUsage)
    (hvalid : env.valid pool_name = some true)
    (hvals : env.values pool_name = some v)
    (hcu : v.collectionUsage = some cu)
    (hct : v.collectionUsageThresholdSupported = false)
    (hut : v.usageThresholdSupported = false) :
    ∀ suffix ∈ ["CollectionUsageMax", "CollectionUsageInit", "CollectionUsageUsed",
        "CollectionUsageCommitted", "UsageMax", "UsageInit", "UsageUsed", "UsageCommitted",
        "PeakUsageMax", "PeakUsageInit", "PeakUsageUsed", "PeakUsageCommitted"],
      dictHas (mp_pool_step env d pool_name) (squashName pool_name ++ suffix) = true := by
  intro suffix hsuf
  unfold mp_pool_step
  rw [hvalid, if_pos rfl, hvals]
  simp only [hcu, hct, hut, Bool.false_eq_true, if_false, handle_neg_bytes_as_set]
  simp only [List.mem_cons, List.not_mem_nil, or_false] at hsuf
  rcases hsuf with rfl | rfl | rfl | rfl | rfl | rfl | rfl | rfl | rfl | rfl | rfl | rfl <;>
    repeat
      first
        | exact dictHas_set_self _ _ _
        | apply dictHas_set_mono

/-- C8: discovered pool/collector names are filtered against the fixed
allow-lists: each non-listed name is reported as an error and contributes
zero metric fields (the record is as if the name had not been discovered),
while allow-listed names are returned for detailed extraction, and a valid
allow-listed pool with complete reads produces its full field set. -/
theorem allow_list_policy (names gnames : List String) (env : MPEnv)
    (jenv : JmxEnv) (mpd : Option (List String))
    (d d2 d3 : Dict) (bad1 bad2 pool_name : String) (v : MPValues) (cu : MemUsage)
    (hbad1 : bad1 ∉ DEFAULT_MP) (hbad2 : bad2 ∉ DEFAULT_GC)
    (hvalid : env.valid pool_name = some true)
    (hvals : env.values pool_name = some v)
    (hcu : v.collectionUsage = some cu)
    (hct : v.collectionUsageThresholdSupported = false)
    (hut : v.usageThresholdSupported = false) :
    get_memory_pool_names (some names)
      = (names.filter (fun n => decide (n ∈ DEFAULT_MP)),
         names.filter (fun n => decide (n ∉ DEFAULT_MP)))
    ∧ get_gc_names (some gnames)
      = (gnames.filter (fun n => decide (n ∈ DEFAULT_GC)),
         gnames.filter (fun n => decide (n ∉ DEFAULT_GC)))
    ∧ add_memory_pool_parameters env (some (bad1 :: names)) d
      = add_memory_pool_parameters env (some names) d
    ∧ add_jmxstats_parameters jenv (some (bad2 :: gnames)) mpd d2
      = add_jmxstats_parameters jenv (some gnames) mpd d2
    ∧ ∀ suffix ∈ ["CollectionUsageMax", "CollectionUsageInit", "CollectionUsageUsed",
        "CollectionUsageCommitted", "UsageMax", "UsageInit", "UsageUsed", "UsageCommitted",
        "PeakUsageMax", "PeakUsageInit", "PeakUsageUsed", "PeakUsageCommitted"],
        dictHas (mp_pool_step env d3 pool_name) (squashName pool_name ++ suffix) = true :=
  ⟨get_memory_pool_names_filter names, get_gc_names_filter gnames,
   mp_zero_contribution env names bad1 d hbad1,
   gc_zero_contribution jenv d2 bad2 gnames mpd hbad2,
   mp_pool_full_fields env d3 pool_name v cu hvalid hvals hcu hct hut⟩

/-- C8 (witness): a mixed discovery with one supported and one unsupported
name on each side, and a valid Metaspace pool with complete reads. -/
theorem allow_list_policy_witness :
    get_memory_pool_names (some ["G1 Eden Space"])
      = (["G1 Eden Space"].filter (fun n => decide (n ∈ DEFAULT_MP)),
         ["G1 Eden Space"].filter (fun n => decide (n ∉ DEFAULT_MP)))
    ∧ get_gc_names (some ["G1 Old Generation"])
      = (["G1 Old Generation"].filter (fun n => decide (n ∈ DEFAULT_GC)),
         ["G1 Old Generation"].filter (fun n => decide (n ∉ DEFAULT_GC)))
    ∧ add_memory_pool_parameters
        ⟨fun n => if n = "Metaspace" then some true else none,
         fun n => if n = "Metaspace"
           then some ⟨some ⟨-1, 4, 6, 8⟩, ⟨1, 2, 3, 4⟩, ⟨5, 6, 7, 8⟩, false, false⟩ else none,
         fun _ => none, fun _ => none⟩
        (some ("Weird Pool" :: ["G1 Eden Space"])) []
      = add_memory_pool_parameters
        ⟨fun n => if n = "Metaspace" then some true else none,
         fun n => if n = "Metaspace"
           then some ⟨some ⟨-1, 4, 6, 8⟩, ⟨1, 2, 3, 4⟩, ⟨5, 6, 7, 8⟩, false, false⟩ else none,
         fun _ => none, fun _ => none⟩
        (some ["G1 Eden Space"]) []
    ∧ add_jmxstats_parameters ⟨none, none, none, fun _ => none, fun _ => none,
        fun _ => none, fun _ => none⟩
        (some ("Odd GC" :: ["G1 Old Generation"])) none []
      = add_jmxstats_parameters ⟨none, none, none, fun _ => none, fun _ => none,
        fun _ => none, fun _ => none⟩
        (some ["G1 Old Generation"]) none []
    ∧ ∀ suffix ∈ ["CollectionUsageMax", "CollectionUsageInit", "CollectionUsageUsed",
        "CollectionUsageCommitted", "UsageMax", "UsageInit", "UsageUsed", "UsageCommitted",
        "PeakUsageMax", "PeakUsageInit", "PeakUsageUsed", "PeakUsageCommitted"],
        dictHas (mp_pool_step
          ⟨fun n => if n = "Metaspace" then some true else none,
           fun n => if n = "Metaspace"
             then some ⟨some ⟨-1, 4, 6, 8⟩, ⟨1, 2, 3, 4⟩, ⟨5, 6, 7, 8⟩, false, false⟩ else none,
           fun _ => none, fun _ => none⟩
          [] "Metaspace") (squashName "Metaspace" ++ suffix) = true :=
  allow_list_policy ["G1 Eden Space"] ["G1 Old Generation"]
    ⟨fun n => if n = "Metaspace" then some true else none,
     fun n => if n = "Metaspace"
       then some ⟨some ⟨-1, 4, 6, 8⟩, ⟨1, 2, 3, 4⟩, ⟨5, 6, 7, 8⟩, false, false⟩ else none,
     fun _ => none, fun _ => none⟩
    ⟨none, none, none, fun _ => none, fun _ => none, fun _ => none, fun _ => none⟩
    none [] [] [] "Weird Pool" "Odd GC" "Metaspace"
    ⟨some ⟨-1, 4, 6, 8⟩, ⟨1, 2, 3, 4⟩, ⟨5, 6, 7, 8⟩, false, false⟩ ⟨-1, 4, 6, 8⟩
    (by decide) (by decide) (by decide) (by decide) (by decide) (by decide) (by decide)

/- ## Claim C9: propagation policy -/

/-- Per-category accounting of the worker loop: each category yields exactly
one queued record or one error log, for any extraction behaviour. -/
theorem get_pid_jmx_stats_go_len (pid : String)
    (extract : String → Except String Dict) (ts : ℚ) (docs : List String) :
    (get_pid_jmx_stats.go pid extract ts docs).1.length
      + (get_pid_jmx_stats.go pid extract ts docs).2.length = docs.length := by
  induction docs with
  | nil => rfl
  | cons doc rest ih =>
    unfold get_pid_jmx_stats.go
    rcases h : extract doc with e | dj
    · simp
      omega
    · by_cases hdj : dj = [] <;> simp [hdj] <;> omega

/-- C9 (amended): every failure inside one category's extraction is caught
per category and turned into an error log, so a worker always completes all
categories — the queued records and the logged errors together account for
every category, and the worker itself never propagates an exception.  (The
claim's stronger statement that *nothing* in the cycle propagates is false:
see the counterexample for the dispatch and status-parsing paths.) -/
theorem worker_catches_per_category (pid : String)
    (extract : String → Except String Dict) (ts : ℚ) :
    (get_pid_jmx_stats pid extract ts).1.length
      + (get_pid_jmx_stats pid extract ts).2.length = ZOOK_DOCS.length :=
  get_pid_jmx_stats_go_len pid extract ts ZOOK_DOCS

/-- C9 (counterexample): two uncaught propagation paths out of the cycle:
(1) draining a zookeeperStats record that lacks the raw counters (a
partially extracted record) raises a KeyError inside `dispatch_data`, which
runs outside the `try` of `collect_jmx_data` and aborts the cycle; (2) an
agent status output without a second line raises an IndexError inside
`get_pid_port`, which `run_pid_process` does not catch. -/
theorem orchestrator_uncaught_exception_cex :
    collect_drain 60 1 [("111", "zookeeperStats",
        [(TIMESTAMP, JVal.num 2), ("nodeCount", JVal.num 5)])] []
      = Except.error "KeyError: packetsSent"
    ∧ get_pid_port ("ok", "", 0) ("", "", 0) 9999
      = Except.error "IndexError: status has no second line" := by
  decide

/- ## Claim C10: pre-declared jmxStats defaults -/

/-- One GC-loop iteration only adds keys, so presence is preserved. -/
theorem jmx_gc_step_has (env : JmxEnv) (d : Dict) (n k : String)
    (h : dictHas d k = true) : dictHas (jmx_gc_step env d n) k = true := by
  unfold jmx_gc_step
  split
  · split
    · exact h
    · exact dictHas_set_mono _ _ _ _ (dictHas_set_mono _ _ _ _ h)
  · exact h

/-- One pool-loop iteration only adds keys, so presence is preserved. -/
theorem jmx_mp_step_has (env : JmxEnv) (d : Dict) (n k : String)
    (h : dictHas d k = true) : dictHas (jmx_mp_step env d n) k = true := by
  unfold jmx_mp_step
  split
  · split
    · exact h
    · exact dictHas_set_mono _ _ _ _ h
  · exact h

/-- The GC loop preserves key presence. -/
theorem gc_fold_has (env : JmxEnv) (names : List String) :
    ∀ (d : Dict) (k : String), dictHas d k = true →
      dictHas (names.foldl (jmx_gc_step env) d) k = true := by
  induction names with
  | nil => intro d k h; exact h
  | cons n rest ih =>
    intro d k h
    exact ih (jmx_gc_step env d n) k (jmx_gc_step_has env d n k h)

/-- The pool loop preserves key presence. -/
theorem mp_fold_has (env : JmxEnv) (names : List String) :
    ∀ (d : Dict) (k : String), dictHas d k = true →
      dictHas (names.foldl (jmx_mp_step env) d) k = true := by
  induction names with
  | nil => intro d k h; exact h
  | cons n rest ih =>
    intro d k h
    exact ih (jmx_mp_step env d n) k (jmx_mp_step_has env d n k h)

/-- When no name passes its Valid check, a GC-loop iteration is a no-op. -/
theorem jmx_gc_step_id (env : JmxEnv) (d : Dict) (n : String)
    (h : env.gcValid n ≠ some true) : jmx_gc_step env d n = d := by
  unfold jmx_gc_step
  rw [if_neg h]

/-- When no name passes its Valid check, a pool-loop iteration is a no-op. -/
theorem jmx_mp_step_id (env : JmxEnv) (d : Dict) (n : String)
    (h : env.mpValid n ≠ some true) : jmx_mp_step env d n = d := by
  unfold jmx_mp_step
  rw [if_neg h]

/-- When every Valid check fails, the whole GC loop is a no-op. -/
theorem gc_fold_id (env : JmxEnv) (names : List String)
    (h : ∀ n, env.gcValid n ≠ some true) :
    ∀ d : Dict, names.foldl (jmx_gc_step env) d = d := by
  induction names with
  | nil => intro d; rfl
  | cons n rest ih =>
    intro d
    rw [List.foldl_cons, jmx_gc_step_id env d n (h n), ih d]

/-- When every Valid check fails, the whole pool loop is a no-op. -/
theorem mp_fold_id (env : JmxEnv) (names : List String)
    (h : ∀ n, env.mpValid n ≠ some true) :
    ∀ d : Dict, names.foldl (jmx_mp_step env) d = d := by
  induction names with
  | nil => intro d; rfl
  | cons n rest ih =>
    intro d
    rw [List.foldl_cons, jmx_mp_step_id env d n (h n), ih d]

/-- The defaults loop stores 0 under each of the ten pre-declared keys. -/
theorem setDefaults_get (d : Dict) :
    ∀ k ∈ jmx_param_list,
      alGet (jmx_param_list.foldl (fun acc p => alSet acc p (JVal.num 0)) d) k
        = some (JVal.num 0) := by
  intro k hk
  simp only [jmx_param_list, List.mem_cons, List.not_mem_nil, or_false] at hk
  rcases hk with rfl | rfl | rfl | rfl | rfl | rfl | rfl | rfl | rfl | rfl <;>
    simp +decide [jmx_param_list, alGet_set]

/-- C10: every jmxStats record contains all ten pre-declared GC and
memory-pool keys (they are set before the per-name loops and nothing deletes
them); and whenever every per-name Valid sub-query fails or returns a
non-200 status, each of the ten keys is present with value exactly 0. -/
theorem jmxstats_predeclared_defaults (env : JmxEnv)
    (gcd mpd : Option (List String)) (d : Dict) :
    (∀ k ∈ jmx_param_list,
      dictHas (add_jmxstats_parameters env gcd mpd d) k = true)
    ∧ ((∀ n, env.gcValid n ≠ some true) → (∀ n, env.mpValid n ≠ some true) →
        ∀ k ∈ jmx_param_list,
          alGet (add_jmxstats_parameters env gcd mpd d) k = some (JVal.num 0)) := by
  constructor
  · intro k hk
    unfold add_jmxstats_parameters
    apply mp_fold_has
    apply gc_fold_has
    simp [dictHas, setDefaults_get _ k hk]
  · intro hgc hmp k hk
    unfold add_jmxstats_parameters
    rw [mp_fold_id env _ hmp, gc_fold_id env _ hgc]
    exact setDefaults_get _ k hk

/-- C10 (witness): a discovered allow-listed GC name whose Valid check fails
(non-200) still leaves all ten keys present with value 0. -/
theorem jmxstats_predeclared_defaults_witness :
    ∀ k ∈ jmx_param_list,
      alGet (add_jmxstats_parameters
          ⟨none, none, none, fun _ => none, fun _ => none, fun _ => none, fun _ => none⟩
          (some ["G1 Old Generation"]) none []) k = some (JVal.num 0) :=
  (jmxstats_predeclared_defaults
      ⟨none, none, none, fun _ => none, fun _ => none, fun _ => none, fun _ => none⟩
      (some ["G1 Old Generation"]) none []).2
    (fun _ h => Option.noConfusion h) (fun _ h => Option.noConfusion h)
